import Mathlib

/-!
Verification of the streaming audio-mix pipeline of `audio_processor.py`.

Shallow embedding conventions:
* Python floats are modelled as rationals (`ℚ`).
* The `while` loops of `_build_atempo_filter` are modelled as fuel-indexed
  structural recursion; the fuel argument only exists to make the translation
  total, and for every speed the theorems consider one iteration of each loop
  is enough (the application clamps requested speeds to `[0.5, 2.0]`, where
  the loops do not run at all).
* Text processed by the error-reporting code is modelled as `List Char`.
* Stateful methods of `AudioProcessor` become explicit state-passing
  functions over a record of the relevant instance fields; wall-clock time
  (`time.time()`) is an explicit `now : ℚ` argument.
* Messages built by string interpolation keep their fixed text; numeric
  interpolations (file sizes, durations) are carried as separate payload
  fields of a structured message type where a claim depends on them.
-/

namespace Mymix

/-! ### `_build_atempo_filter` (C1) -/

/-- `f"atempo={remaining_speed:.3f}"`: the remainder stage value is printed
with three decimal places, i.e. rounded to the nearest multiple of `1/1000`. -/
def round3 (q : ℚ) : ℚ := (round (q * 1000) : ℤ) / 1000

/-- `while remaining_speed > 2.0: filters.append("atempo=2.0"); remaining_speed /= 2.0`.
Returns the emitted stage values and the final remaining speed. -/
def halveStages : Nat → ℚ → List ℚ × ℚ
  | 0, r => ([], r)
  | Nat.succ n, r =>
    if 2 < r then
      ((2 : ℚ) :: (halveStages n (r / 2)).1, (halveStages n (r / 2)).2)
    else ([], r)

/-- `while remaining_speed < 0.5: filters.append("atempo=0.5"); remaining_speed /= 0.5`. -/
def doubleStages : Nat → ℚ → List ℚ × ℚ
  | 0, r => ([], r)
  | Nat.succ n, r =>
    if r < 1/2 then
      ((1/2 : ℚ) :: (doubleStages n (r / (1/2))).1, (doubleStages n (r / (1/2))).2)
    else ([], r)

/-- `_build_atempo_filter(speed)` as the list of atomic atempo stage values.
The source joins the stage values into a comma-separated filter string;
speed `1.0` returns the empty string, i.e. the empty list of stages, and a
final remainder stage is appended whenever the remaining speed is not `1.0`. -/
def build_atempo_filter (speed : ℚ) (fuel : Nat) : List ℚ :=
  if speed = 1 then []
  else
    (halveStages fuel speed).1
      ++ (doubleStages fuel (halveStages fuel speed).2).1
      ++ (if (doubleStages fuel (halveStages fuel speed).2).2 ≠ 1
          then [round3 (doubleStages fuel (halveStages fuel speed).2).2] else [])

/-! ### Render progress reporting (C2) -/

/-- Python `int()` applied to a float truncates toward zero. -/
def int_trunc (q : ℚ) : ℤ := if 0 ≤ q then ⌊q⌋ else ⌈q⌉

/-- The percent computed inside the `render_to_file` progress loop for a
parsed timestamp `currentSeconds` against the target `adjusted_duration`:
`progress_ratio = min(current_seconds / adjusted_duration, 1.0)` and
`progress_pct = min(95, 20 + int(progress_ratio * 75))`. -/
def progress_pct (current_seconds adjusted_duration : ℚ) : ℤ :=
  min 95 (20 + int_trunc (min (current_seconds / adjusted_duration) 1 * 75))

/-- Modelled from the spec: the claimed formula
`clamp(95, 20 + round(75 * min(currentSeconds/targetDuration, 1.0)))`,
with `round` denoting rounding to the nearest integer. -/
def spec_progress_pct (current_seconds adjusted_duration : ℚ) : ℤ :=
  min 95 (20 + round (75 * min (current_seconds / adjusted_duration) 1))

/-! ### Diagnostic-stream scanning and the render verdict (C3, C4) -/

/-- ASCII lowering, as `str.lower()` acts on the ASCII keywords involved. -/
def asciiLower (c : Char) : Char :=
  if 'A' ≤ c ∧ c ≤ 'Z' then Char.ofNat (c.toNat + 32) else c

/-- `pat` is a prefix of the second list. -/
def charsPrefix : List Char → List Char → Bool
  | [], _ => true
  | _ :: _, [] => false
  | p :: ps, c :: cs => p == c && charsPrefix ps cs

/-- Python `pat in s` substring containment. -/
def hasSubstr : List Char → List Char → Bool
  | [], pat => charsPrefix pat []
  | c :: rest, pat => charsPrefix pat (c :: rest) || hasSubstr rest pat

/-- Python `text.split('\n')` (keeps empty pieces, `split` of the empty
text is one empty piece). -/
def splitLines : List Char → List (List Char)
  | [] => [[]]
  | c :: rest =>
    match splitLines rest with
    | [] => [[c]]
    | l :: ls => if c = '\n' then [] :: l :: ls else (c :: l) :: ls

/-- `'error' in line.lower() or 'invalid' in line.lower() or 'failed' in line.lower()`. -/
def isErrorLine (line : List Char) : Bool :=
  hasSubstr (line.map asciiLower) ("error".toList)
    || hasSubstr (line.map asciiLower) ("invalid".toList)
    || hasSubstr (line.map asciiLower) ("failed".toList)

/-- Python `l[-n:]`: the last `n` elements (the whole list when shorter). -/
def lastN (n : ℕ) (l : List Char) : List Char := l.drop (l.length - n)

/-- Python `'\n'.join(lines)`. -/
def joinLines : List (List Char) → List Char
  | [] => []
  | [l] => l
  | l :: ls => l ++ '\n' :: joinLines ls

/-- The error summary surfaced when the engine exits non-zero: the last five
stderr lines containing an error keyword, or the last 500 characters of the
whole stderr stream when no line matches. -/
def error_summary (stderr_text : List Char) : List Char :=
  let error_lines := (splitLines stderr_text).filter isErrorLine
  if error_lines.isEmpty then lastN 500 stderr_text
  else joinLines (error_lines.drop (error_lines.length - 5))

/-- `os.path.getsize(output_path) / (1024 * 1024)`: size in MB. -/
def mb_size (size_bytes : ℕ) : ℚ := (size_bytes : ℚ) / (1024 * 1024)

/-- Observable result of the engine subprocess in the streaming render path:
exit code, accumulated stderr, and the state of the output file on exit. -/
structure RenderExit where
  returncode : ℤ
  stderr_text : List Char
  output_exists : Bool
  output_size_bytes : ℕ

/-- The message surfaced by `render_to_file` (fixed texts abbreviated;
numeric payloads carried as fields). -/
inductive RenderMsg
  | engineFailed (code : ℤ) (summary : List Char)
  | outputMissing
  | outputTooSmall (size_mb : ℚ)
  | saved (size_mb : ℚ)
deriving DecidableEq

/-- Verdict of the streaming `render_to_file` path once the engine process
has exited: non-zero exit code fails with the error summary; a zero exit
code still fails when the output file is missing or smaller than 0.1 MB;
otherwise the render succeeds, reporting the final file size. -/
def render_verdict (r : RenderExit) : Bool × RenderMsg :=
  if r.returncode ≠ 0 then
    (false, .engineFailed r.returncode (error_summary r.stderr_text))
  else if r.output_exists = false then
    (false, .outputMissing)
  else if mb_size r.output_size_bytes < 1/10 then
    (false, .outputTooSmall (mb_size r.output_size_bytes))
  else
    (true, .saved (mb_size r.output_size_bytes))

/-- Terminal outcome of one streaming render: either the engine exited and
the verdict logic ran, or the render was cancelled (`KeyboardInterrupt`). -/
inductive RenderEnd
  | exited (r : RenderExit)
  | cancelled

/-- `render_to_file` control flow for the temporary concat-list file of a
multi-file render: the pair (render reported success, concat file deleted).
In the source the `os.unlink(concat_file_path)` block sits after the
non-zero-exit return, the missing-output return and the too-small return,
and the `KeyboardInterrupt` handler returns without reaching it, so deletion
happens only on the success path. -/
def render_run (multi_file : Bool) (e : RenderEnd) : Bool × Bool :=
  match e with
  | .cancelled => (false, false)
  | .exited r =>
    if r.returncode ≠ 0 then (false, false)
    else if r.output_exists = false then (false, false)
    else if mb_size r.output_size_bytes < 1/10 then (false, false)
    else (true, multi_file)

/-! ### Playback state machine (C5, C6, C9) -/

/-- The `AudioProcessor` instance fields relevant to playback control. -/
structure ProcState where
  is_playing : Bool
  playback_start_time : ℚ
  playback_start_position : ℚ
  has_streaming_process : Bool
  current_playback_file : Option String
  has_audiobook : Bool
  has_music : Bool
deriving DecidableEq

/-- `get_playback_position`: `0` when `not self.is_playing`, otherwise
`self.playback_start_position + (time.time() - self.playback_start_time)`. -/
def get_playback_position (s : ProcState) (now : ℚ) : ℚ :=
  if s.is_playing = false then 0
  else s.playback_start_position + (now - s.playback_start_time)

/-- The state written by a successful `play_mix(start_position)` once the
player starts: `is_playing = True`, a live streaming process, the playback
clock anchored at `(now, start_position)`, and the session temp file
registered as `current_playback_file`. -/
def play_mix_start (s : ProcState) (start_position : ℚ) (now : ℚ) (temp_path : String) :
    ProcState :=
  { s with
    is_playing := true
    has_streaming_process := true
    playback_start_time := now
    playback_start_position := start_position
    current_playback_file := some temp_path }

/-- `def play_mix(self, start_position=0)`: the default offset used when
`play_mix` is called with no explicit argument. -/
def play_mix_default_offset : ℚ := 0

/-- Result of `seek_to_position`: successor state, returned success flag,
and whether a new engine subprocess was spawned. -/
structure SeekResult where
  state : ProcState
  ok : Bool
  spawned : Bool
deriving DecidableEq

/-- `seek_to_position(position_seconds)`: with no audio loaded it fails;
while playing (`was_playing or self.is_playing`) it restarts playback from
the new position via `play_mix(position_seconds)`; while idle it only
returns `True, "Position set to {position_seconds}s"` — the source performs
no state update in that branch. -/
def seek_to_position (s : ProcState) (position_seconds : ℚ) (mixer_busy : Bool)
    (now : ℚ) (temp_path : String) : SeekResult :=
  if s.has_audiobook = false ∨ s.has_music = false then ⟨s, false, false⟩
  else if mixer_busy ∨ s.is_playing then
    ⟨play_mix_start s position_seconds now temp_path, true, true⟩
  else ⟨s, true, false⟩

/-- `pause_playback`: calls `pygame.mixer.music.pause()` when playing and
busy. It touches none of the instance fields — in particular neither
`is_playing` nor the playback clock. -/
def pause_playback (s : ProcState) (mixer_busy : Bool) : ProcState × Bool :=
  if s.is_playing = true ∧ mixer_busy = true then (s, true) else (s, false)

/-- Result of `stop_playback`: successor state, returned success flag,
whether the engine process received terminate/kill, and the temporary files
it unlinked. -/
structure StopResult where
  state : ProcState
  ok : Bool
  engine_terminated : Bool
  deleted_files : List String
deriving DecidableEq

/-- `stop_playback`: stops the player, clears `is_playing`, terminates the
streaming process when one is live (graceful `terminate` with a 2-second
wait, then `kill`; both wrapped so no exception escapes), clears the
handle, and unlinks `current_playback_file` when it is set. -/
def stop_playback (s : ProcState) : StopResult :=
  { state :=
      { s with
        is_playing := false
        has_streaming_process := false
        current_playback_file := none }
    ok := true
    engine_terminated := s.has_streaming_process
    deleted_files :=
      match s.current_playback_file with
      | some f => [f]
      | none => [] }

/-- The processor state in the middle of `play_mix`, after the engine
subprocess has been spawned and while the buffering wait loop runs: the
initial `stop_playback` left `is_playing = False` and
`current_playback_file = None`, and the fresh temp path exists only in a
local variable — it is not registered in any instance field until
`pygame.mixer.music.play()` has succeeded. -/
def buffering_state : ProcState :=
  { is_playing := false
    playback_start_time := 0
    playback_start_position := 0
    has_streaming_process := true
    current_playback_file := none
    has_audiobook := true
    has_music := true }

/-! ### Multi-file duration aggregation (C8) -/

/-- One probed file's contribution to the total: `if duration: total += duration`
— a failed probe (`None`) and a zero duration are both falsy and contribute
nothing. -/
def probe_contribution : Option ℚ → ℚ
  | some d => if d = 0 then 0 else d
  | none => 0

/-- `duration = 0; for f in files: ... if file_duration: duration += file_duration`. -/
def duration_sum (ds : List (Option ℚ)) : ℚ := (ds.map probe_contribution).sum

/-- The multi-file duration check shared by `play_mix` and `render_to_file`:
`if duration == 0: return False, "Could not determine audiobook duration"`. -/
def aggregate_duration (ds : List (Option ℚ)) : Except String ℚ :=
  if duration_sum ds = 0 then Except.error "Could not determine audiobook duration"
  else Except.ok (duration_sum ds)

/-! ### Concat playlist quoting (C7) -/

/-- `file_path.replace("'", "'\\''")` acting on one character: a single
quote becomes quote–backslash–quote–quote, every other character is kept. -/
def escape_quote_char (c : Char) : List Char :=
  if c = '\'' then ['\'', '\\', '\'', '\''] else [c]

/-- `file_path.replace("'", "'\\''")` over the whole path. -/
def escape_path : List Char → List Char
  | [] => []
  | c :: cs => escape_quote_char c ++ escape_path cs

/-- `f"file '{safe_path}'\n"` without the trailing newline: the playlist
entry written for one path. -/
def concat_entry (path : List Char) : List Char :=
  ("file ".toList) ++ '\'' :: (escape_path path ++ ['\''])

/-- Modelled from the spec: the external concatenation demuxer's quoting
rule, which is not part of this repository. A single quote toggles quoted
mode (and is not part of the value); inside quotes every character is
literal; outside quotes a backslash escapes the following character. The
boolean argument tracks whether the scanner is inside quotes. -/
def demux_unquote : Bool → List Char → List Char
  | _, [] => []
  | true, c :: rest =>
    if c = '\'' then demux_unquote false rest else c :: demux_unquote true rest
  | false, c :: rest =>
    if c = '\'' then demux_unquote true rest
    else if c = '\\' then
      match rest with
      | [] => []
      | d :: rest2 => d :: demux_unquote false rest2
    else c :: demux_unquote false rest

/-- Parse the path back out of a playlist entry: strip the 5-character
`file ` directive, then apply the demuxer's unquoting. -/
def parse_concat_entry (entry : List Char) : List Char :=
  demux_unquote false (entry.drop 5)

/-! ### Loading with MemoryError fallback (C10) -/

/-- Outcome of `AudioSegment.from_mp3` when it is attempted. -/
inductive DecodeResult
  | ok (duration_ms : ℕ)
  | memoryError
  | failure (msg : List Char)

/-- Result of `load_audiobook` / `load_background_music`: the returned
success flag, whether the in-memory segment field was set, and the
returned message (numeric interpolations omitted). -/
structure LoadResult where
  ok : Bool
  segment_loaded : Bool
  message : String
deriving DecidableEq

/-- Does a failure message mention a format problem
(`"format" in error_msg.lower() or "codec" in error_msg.lower()`)? -/
def format_related (msg : List Char) : Bool :=
  hasSubstr (msg.map asciiLower) ("format".toList)
    || hasSubstr (msg.map asciiLower) ("codec".toList)

/-- `load_audiobook(file_path)`: files over 300 MB are never decoded and go
straight to streaming mode; smaller files are decoded, and a `MemoryError`
during decoding still returns `True` in streaming mode with the segment
left unset; any other decoding exception returns `False`. -/
def load_audiobook (file_size_mb : ℚ) (basename : String) (decode : DecodeResult) :
    LoadResult :=
  if 300 < file_size_mb then
    ⟨true, false, "Ready: " ++ basename ++ " - Streaming mode"⟩
  else
    match decode with
    | .ok _ => ⟨true, true, "Loaded: " ++ basename⟩
    | .memoryError =>
      ⟨true, false, "Ready for streaming: " ++ basename ++ " (too large to load, streaming only)"⟩
    | .failure m =>
      if format_related m then
        ⟨false, false, "Audio format issue. Make sure the file is a valid MP3."⟩
      else ⟨false, false, "Error analyzing audiobook"⟩

/-- `load_background_music(file_path)`: same shape as `load_audiobook` with
a 100 MB streaming threshold. -/
def load_background_music (file_size_mb : ℚ) (basename : String) (decode : DecodeResult) :
    LoadResult :=
  if 100 < file_size_mb then
    ⟨true, false, "Ready: " ++ basename ++ " - Streaming mode"⟩
  else
    match decode with
    | .ok _ => ⟨true, true, "Loaded: " ++ basename⟩
    | .memoryError =>
      ⟨true, false, "Ready for streaming: " ++ basename ++ " (too large to load, streaming only)"⟩
    | .failure m =>
      if format_related m then
        ⟨false, false, "Audio format issue. Make sure the file is a valid MP3."⟩
      else ⟨false, false, "Error analyzing music"⟩

end Mymix

namespace Mymix

lemma halveStages_stop (n : ℕ) (r : ℚ) (h : ¬ 2 < r) : halveStages n r = ([], r) := by
  cases n with
  | zero => rfl
  | succ m => rw [halveStages, if_neg h]

lemma halveStages_step (n : ℕ) (r : ℚ) (h : 2 < r) :
    halveStages (n + 1) r = ((2 : ℚ) :: (halveStages n (r / 2)).1, (halveStages n (r / 2)).2) := by
  rw [halveStages, if_pos h]

lemma doubleStages_stop (n : ℕ) (r : ℚ) (h : ¬ r < 1/2) : doubleStages n r = ([], r) := by
  cases n with
  | zero => rfl
  | succ m => rw [doubleStages, if_neg h]

lemma doubleStages_step (n : ℕ) (r : ℚ) (h : r < 1/2) :
    doubleStages (n + 1) r =
      ((1/2 : ℚ) :: (doubleStages n (r / (1/2))).1, (doubleStages n (r / (1/2))).2) := by
  rw [doubleStages, if_pos h]

lemma build_atempo_filter_inRange (s : ℚ) (h1 : 1/2 ≤ s) (h2 : s ≤ 2) (hne : s ≠ 1) :
    build_atempo_filter s 64 = [round3 s] := by
  unfold build_atempo_filter
  rw [if_neg hne, halveStages_stop _ _ (by linarith)]
  rw [doubleStages_stop _ _ (by simp; linarith)]
  simp [hne]

lemma round3_mono {x y : ℚ} (h : x ≤ y) : round3 x ≤ round3 y := by
  unfold round3
  have hr : round (x * 1000) ≤ round (y * 1000) := by
    rw [round_eq, round_eq]
    exact Int.floor_mono (by linarith)
  have hc : ((round (x * 1000) : ℤ) : ℚ) ≤ ((round (y * 1000) : ℤ) : ℚ) := by exact_mod_cast hr
  linarith

lemma abs_round3_sub (q : ℚ) : |round3 q - q| ≤ 1/2000 := by
  have h := abs_sub_round (q * 1000)
  rw [abs_sub_comm] at h
  have heq : round3 q - q = (((round (q * 1000) : ℤ) : ℚ) - q * 1000) / 1000 := by
    unfold round3; ring
  rw [heq, abs_div, show |(1000 : ℚ)| = 1000 by norm_num]
  linarith [h]

lemma round3_half : round3 (1/2) = 1/2 := by norm_num [round3, round_eq]

lemma round3_two : round3 2 = 2 := by norm_num [round3, round_eq]

lemma build_atempo_one : build_atempo_filter 1 64 = [] := by
  unfold build_atempo_filter
  rw [if_pos rfl]

lemma build_atempo_half : build_atempo_filter (1/2) 64 = [1/2] := by
  rw [build_atempo_filter_inRange (1/2) (by norm_num) (by norm_num) (by norm_num), round3_half]

lemma build_atempo_two : build_atempo_filter 2 64 = [2] := by
  rw [build_atempo_filter_inRange 2 (by norm_num) (by norm_num) (by norm_num), round3_two]

lemma build_atempo_thirteen : build_atempo_filter (13/10) 64 = [13/10] := by
  rw [build_atempo_filter_inRange (13/10) (by norm_num) (by norm_num) (by norm_num)]
  norm_num [round3, round_eq]

lemma build_atempo_three : build_atempo_filter 3 64 = [2, 3/2] := by
  unfold build_atempo_filter
  rw [if_neg (by norm_num), show (64 : ℕ) = 63 + 1 from rfl,
    halveStages_step _ _ (by norm_num), halveStages_stop 63 (3/2) (by norm_num)]
  rw [doubleStages_stop _ _ (by norm_num)]
  norm_num [round3, round_eq]

lemma build_atempo_quarter : build_atempo_filter (1/4) 64 = [1/2, 1/2] := by
  unfold build_atempo_filter
  rw [if_neg (by norm_num), halveStages_stop _ _ (by norm_num),
    show (64 : ℕ) = 63 + 1 from rfl]
  rw [show (([] : List ℚ), (1/4 : ℚ)).2 = (1/4 : ℚ) from rfl]
  rw [doubleStages_step _ _ (by norm_num),
    show ((1:ℚ)/4) / (1/2) = 1/2 by norm_num,
    doubleStages_stop 63 (1/2) (by norm_num)]
  norm_num [round3, round_eq]

/-- C1: for every speed the application can request (the setter clamps to
`[0.5, 2.0]`) and for each speed in `{0.5, 1.0, 1.3, 2.0, 3.0, 0.25}`, the
tempo filter is a chain of `2.0` stages, then `0.5` stages, then at most one
remainder stage; every stage value lies in `[0.5, 2.0]`; the product of the
stage values equals the requested speed within `1e-3`; and speed exactly
`1.0` yields zero stages. -/
theorem C1_atempo_chain (s : ℚ)
    (h : (1/2 ≤ s ∧ s ≤ 2) ∨ s ∈ ([1/2, 1, 13/10, 2, 3, 1/4] : List ℚ)) :
    (∃ a b rest, build_atempo_filter s 64 =
        List.replicate a (2 : ℚ) ++ List.replicate b ((1 : ℚ)/2) ++ rest ∧
        rest.length ≤ 1) ∧
    (∀ v ∈ build_atempo_filter s 64, 1/2 ≤ v ∧ v ≤ 2) ∧
    |(build_atempo_filter s 64).prod - s| ≤ 1/1000 ∧
    (s = 1 → build_atempo_filter s 64 = []) := by
  have range_case : ∀ t : ℚ, 1/2 ≤ t → t ≤ 2 →
      (∃ a b rest, build_atempo_filter t 64 =
          List.replicate a (2 : ℚ) ++ List.replicate b ((1 : ℚ)/2) ++ rest ∧
          rest.length ≤ 1) ∧
      (∀ v ∈ build_atempo_filter t 64, 1/2 ≤ v ∧ v ≤ 2) ∧
      |(build_atempo_filter t 64).prod - t| ≤ 1/1000 ∧
      (t = 1 → build_atempo_filter t 64 = []) := by
    intro t h1 h2
    by_cases ht : t = 1
    · subst ht
      rw [build_atempo_one]
      refine ⟨⟨0, 0, [], by simp, by simp⟩, by simp, by simp, fun _ => rfl⟩
    · rw [build_atempo_filter_inRange t h1 h2 ht]
      have hb1 : 1/2 ≤ round3 t := by
        have := round3_mono h1
        rwa [round3_half] at this
      have hb2 : round3 t ≤ 2 := by
        have := round3_mono h2
        rwa [round3_two] at this
      have herr := abs_round3_sub t
      refine ⟨⟨0, 0, [round3 t], by simp, by simp⟩, ?_, ?_, fun ht1 => absurd ht1 ht⟩
      · intro v hv
        simp only [List.mem_singleton] at hv
        subst hv
        exact ⟨hb1, hb2⟩
      · simp only [List.prod_singleton]
        linarith
  rcases h with ⟨h1, h2⟩ | hmem
  · exact range_case s h1 h2
  · simp only [List.mem_cons, List.mem_singleton, List.not_mem_nil, or_false] at hmem
    rcases hmem with h' | h' | h' | h' | h' | h'
    · subst h'; exact range_case (1/2) (by norm_num) (by norm_num)
    · subst h'; exact range_case 1 (by norm_num) (by norm_num)
    · subst h'; exact range_case (13/10) (by norm_num) (by norm_num)
    · subst h'; exact range_case 2 (by norm_num) (by norm_num)
    · subst h'
      rw [build_atempo_three]
      refine ⟨⟨1, 0, [3/2], by norm_num, by norm_num⟩, ?_, by norm_num, by norm_num⟩
      intro v hv
      simp only [List.mem_cons, List.mem_singleton, List.not_mem_nil, or_false] at hv
      rcases hv with h' | h' <;> subst h' <;> norm_num
    · subst h'
      rw [build_atempo_quarter]
      refine ⟨⟨0, 2, [], by rfl, by norm_num⟩, ?_, by norm_num, by norm_num⟩
      intro v hv
      simp only [List.mem_cons, List.mem_singleton, List.not_mem_nil, or_false] at hv
      rcases hv with h' | h' <;> subst h' <;> norm_num

/-- Witness for C1 at the requested speed `3.0`. -/
theorem C1_atempo_chain_witness :
    (((1:ℚ)/2 ≤ 3 ∧ (3:ℚ) ≤ 2) ∨ (3:ℚ) ∈ ([1/2, 1, 13/10, 2, 3, 1/4] : List ℚ)) ∧
    ((∃ a b rest, build_atempo_filter 3 64 =
        List.replicate a (2 : ℚ) ++ List.replicate b ((1 : ℚ)/2) ++ rest ∧
        rest.length ≤ 1) ∧
     (∀ v ∈ build_atempo_filter 3 64, 1/2 ≤ v ∧ v ≤ 2) ∧
     |(build_atempo_filter 3 64).prod - 3| ≤ 1/1000 ∧
     ((3:ℚ) = 1 → build_atempo_filter 3 64 = [])) :=
  ⟨Or.inr (by simp), C1_atempo_chain 3 (Or.inr (by simp))⟩

end Mymix

namespace Mymix

/-- C2 counterexample: at a parsed timestamp of 53 s against a 100 s target,
the code reports 59 % (`int()` truncation of 39.75), while the claimed
formula with rounding gives 60 %, so the claimed equality fails. -/
theorem C2_progress_counterexample :
    progress_pct 53 100 = 59 ∧ spec_progress_pct 53 100 = 60 ∧
    progress_pct 53 100 ≠ spec_progress_pct 53 100 := by
  have h1 : progress_pct 53 100 = 59 := by
    norm_num [progress_pct, int_trunc, min_def]
  have h2 : spec_progress_pct 53 100 = 60 := by
    norm_num [spec_progress_pct, round_eq, min_def]
  exact ⟨h1, h2, by rw [h1, h2]; norm_num⟩

/-- C2 amended: for every parsed timestamp with `currentSeconds > 0` and
`targetDuration > 0`, the reported percent equals
`min(95, 20 + floor(75 * min(currentSeconds/targetDuration, 1)))` — `int()`
truncation, not rounding; consequently every reported percent lies in
`[20, 95]` and the percent is monotonically non-decreasing in the parsed
timestamp. -/
theorem C2_progress_band_monotone (c d : ℚ) (hc : 0 < c) (hd : 0 < d) :
    progress_pct c d = min 95 (20 + ⌊min (c / d) 1 * 75⌋) ∧
    20 ≤ progress_pct c d ∧ progress_pct c d ≤ 95 ∧
    (∀ c', c ≤ c' → progress_pct c d ≤ progress_pct c' d) := by
  have hre : ∀ x : ℚ, 0 < x → progress_pct x d = min 95 (20 + ⌊min (x / d) 1 * 75⌋) := by
    intro x hx
    have hr : (0:ℚ) ≤ min (x / d) 1 * 75 := by
      have : 0 < x / d := div_pos hx hd
      have : (0:ℚ) ≤ min (x / d) 1 := le_min this.le (by norm_num)
      positivity
    unfold progress_pct int_trunc
    rw [if_pos hr]
  have hfl : ∀ x : ℚ, 0 < x → 0 ≤ ⌊min (x / d) 1 * 75⌋ := by
    intro x hx
    apply Int.floor_nonneg.2
    have : 0 < x / d := div_pos hx hd
    have : (0:ℚ) ≤ min (x / d) 1 := le_min this.le (by norm_num)
    positivity
  refine ⟨hre c hc, ?_, ?_, ?_⟩
  · rw [hre c hc]
    have := hfl c hc
    exact le_min (by norm_num) (by omega)
  · rw [hre c hc]
    exact min_le_left _ _
  · intro c' hcc
    have hc' : 0 < c' := lt_of_lt_of_le hc hcc
    rw [hre c hc, hre c' hc']
    have hmono : min (c / d) 1 ≤ min (c' / d) 1 := by
      apply min_le_min _ le_rfl
      gcongr
    have : ⌊min (c / d) 1 * 75⌋ ≤ ⌊min (c' / d) 1 * 75⌋ := by
      apply Int.floor_mono
      nlinarith
    exact min_le_min le_rfl (by omega)

/-- Witness for C2's amended theorem at `currentSeconds = 53`,
`targetDuration = 100`. -/
theorem C2_progress_band_monotone_witness :
    ((0:ℚ) < 53 ∧ (0:ℚ) < 100) ∧
    (progress_pct 53 100 = min 95 (20 + ⌊min ((53:ℚ) / 100) 1 * 75⌋) ∧
     20 ≤ progress_pct 53 100 ∧ progress_pct 53 100 ≤ 95 ∧
     (∀ c', (53:ℚ) ≤ c' → progress_pct 53 100 ≤ progress_pct c' 100)) :=
  ⟨⟨by norm_num, by norm_num⟩,
    C2_progress_band_monotone 53 100 (by norm_num) (by norm_num)⟩

/-- C3: the streaming render reports failure exactly when the engine exits
non-zero, or exits zero with the output file missing or smaller than 0.1 MB;
a non-zero exit surfaces the error summary (the last five keyword-matching
stderr lines, or the last 500 characters when no line matches); success
reports the final file size. -/
theorem C3_render_failure_conditions (r : RenderExit) :
    ((render_verdict r).1 = false ↔
      r.returncode ≠ 0 ∨ r.output_exists = false ∨ mb_size r.output_size_bytes < 1/10) ∧
    (r.returncode ≠ 0 →
      (render_verdict r).2 = RenderMsg.engineFailed r.returncode (error_summary r.stderr_text)) ∧
    ((splitLines r.stderr_text).filter isErrorLine ≠ [] →
      error_summary r.stderr_text =
        joinLines (((splitLines r.stderr_text).filter isErrorLine).drop
          (((splitLines r.stderr_text).filter isErrorLine).length - 5))) ∧
    ((splitLines r.stderr_text).filter isErrorLine = [] →
      error_summary r.stderr_text = lastN 500 r.stderr_text) ∧
    ((render_verdict r).1 = true →
      (render_verdict r).2 = RenderMsg.saved (mb_size r.output_size_bytes)) := by
  refine ⟨?_, ?_, ?_, ?_, ?_⟩
  · unfold render_verdict
    split_ifs with h1 h2 h3
    · simp [h1]
    · simp [h1, h2]
    · simp [h1, h2, h3]
      linarith
    · simp [h1, h2, h3]
      rw [not_lt] at h3
      linarith
  · intro h1
    unfold render_verdict
    simp [h1]
  · intro h
    unfold error_summary
    simp [List.isEmpty_iff, h]
  · intro h
    unfold error_summary
    simp [List.isEmpty_iff, h]
  · intro h1
    unfold render_verdict at h1 ⊢
    split_ifs at h1 ⊢
    rfl

/-- Witness for C3 at a concrete failed render. -/
theorem C3_render_failure_conditions_witness :
    ((render_verdict ⟨1, "error: boom".toList, false, 0⟩).1 = false ↔
      (1:ℤ) ≠ 0 ∨ false = false ∨ mb_size 0 < 1/10) ∧
    ((1:ℤ) ≠ 0 →
      (render_verdict ⟨1, "error: boom".toList, false, 0⟩).2 =
        RenderMsg.engineFailed 1 (error_summary ("error: boom".toList))) ∧
    ((splitLines ("error: boom".toList)).filter isErrorLine ≠ [] →
      error_summary ("error: boom".toList) =
        joinLines (((splitLines ("error: boom".toList)).filter isErrorLine).drop
          (((splitLines ("error: boom".toList)).filter isErrorLine).length - 5))) ∧
    ((splitLines ("error: boom".toList)).filter isErrorLine = [] →
      error_summary ("error: boom".toList) = lastN 500 ("error: boom".toList)) ∧
    ((render_verdict ⟨1, "error: boom".toList, false, 0⟩).1 = true →
      (render_verdict ⟨1, "error: boom".toList, false, 0⟩).2 = RenderMsg.saved (mb_size 0)) :=
  C3_render_failure_conditions ⟨1, "error: boom".toList, false, 0⟩

/-- C4 counterexample: a multi-file render whose engine exits non-zero is a
terminal failure outcome on which the concat-list file is not deleted,
contradicting deletion on every terminal outcome. -/
theorem C4_concat_counterexample :
    (render_run true (RenderEnd.exited ⟨1, [], true, 10000000⟩)).1 = false ∧
    (render_run true (RenderEnd.exited ⟨1, [], true, 10000000⟩)).2 = false := by
  constructor <;> simp [render_run]

/-- C4 amended: for a multi-file render the temporary concat-list file is
deleted exactly on the success terminal outcome (engine exited zero, output
present and at least 0.1 MB); on every failure outcome and on cancellation
it is left behind. -/
theorem C4_concat_deleted_iff_success (multi_file : Bool) (e : RenderEnd) :
    (render_run multi_file e).2 = ((render_run multi_file e).1 && multi_file) := by
  cases e with
  | cancelled => rfl
  | exited r =>
    simp only [render_run]
    split_ifs <;> simp

end Mymix

namespace Mymix

/-- C5: evaluating the code at the claimed scenario. Seeking to 50 s while
idle returns success ("Position set to 50s") without spawning a subprocess,
but stores nothing: the state is unchanged, the subsequent position query
returns 0 rather than 50, and a subsequent `play_mix()` starts from its
default offset 0 — the inline comment "just update the position for next
play" describes an update the code never performs. -/
theorem C5_idle_seek_forgets :
    (seek_to_position ⟨false, 0, 0, false, none, true, true⟩ 50 false 100 "mix.wav").ok
      = true ∧
    (seek_to_position ⟨false, 0, 0, false, none, true, true⟩ 50 false 100 "mix.wav").spawned
      = false ∧
    (seek_to_position ⟨false, 0, 0, false, none, true, true⟩ 50 false 100 "mix.wav").state
      = ⟨false, 0, 0, false, none, true, true⟩ ∧
    get_playback_position
      (seek_to_position ⟨false, 0, 0, false, none, true, true⟩ 50 false 100 "mix.wav").state
      120 = 0 ∧
    play_mix_default_offset = 0 ∧
    (play_mix_start
        (seek_to_position ⟨false, 0, 0, false, none, true, true⟩ 50 false 100 "mix.wav").state
        play_mix_default_offset 120 "mix2.wav").playback_start_position = 0 := by
  refine ⟨?_, ?_, ?_, ?_, rfl, ?_⟩ <;>
    simp [seek_to_position, get_playback_position, play_mix_start, play_mix_default_offset]

/-- C6 counterexample: with a session that started at position 0 at time 0,
pausing at time 10 does not freeze the reported position: querying at
time 10 gives 10 but querying again at time 20 gives 20, so the value
advances during the pause. -/
theorem C6_pause_counterexample :
    get_playback_position
      (pause_playback ⟨true, 0, 0, true, some "m.wav", true, true⟩ true).1 10 = 10 ∧
    get_playback_position
      (pause_playback ⟨true, 0, 0, true, some "m.wav", true, true⟩ true).1 20 = 20 ∧
    get_playback_position
        (pause_playback ⟨true, 0, 0, true, some "m.wav", true, true⟩ true).1 20 ≠
      get_playback_position
        (pause_playback ⟨true, 0, 0, true, some "m.wav", true, true⟩ true).1 10 := by
  refine ⟨?_, ?_, ?_⟩ <;> norm_num [pause_playback, get_playback_position]

/-- C6 amended: the position model is `startPosition + (now − sessionStartTime)`
whenever `is_playing` holds and 0 otherwise; `pause_playback` leaves every
instance field unchanged (in particular `is_playing` stays true and the
clock fields keep running), so the reported position continues to advance
during a pause instead of freezing; after `stop_playback` the position is 0. -/
theorem C6_position_model (s : ProcState) (now : ℚ) (busy : Bool) :
    (s.is_playing = true →
      get_playback_position s now
        = s.playback_start_position + (now - s.playback_start_time)) ∧
    (s.is_playing = false → get_playback_position s now = 0) ∧
    (pause_playback s busy).1 = s ∧
    get_playback_position (stop_playback s).state now = 0 := by
  refine ⟨?_, ?_, ?_, ?_⟩
  · intro h
    simp [get_playback_position, h]
  · intro h
    simp [get_playback_position, h]
  · unfold pause_playback
    split_ifs <;> rfl
  · simp [get_playback_position, stop_playback]

/-- Witness for C6's amended theorem at a concrete playing state. -/
theorem C6_position_model_witness :
    ((⟨true, 5, 30, true, some "m.wav", true, true⟩ : ProcState).is_playing = true →
      get_playback_position ⟨true, 5, 30, true, some "m.wav", true, true⟩ 12
        = (⟨true, 5, 30, true, some "m.wav", true, true⟩ : ProcState).playback_start_position
          + (12 - (⟨true, 5, 30, true, some "m.wav", true, true⟩ : ProcState).playback_start_time)) ∧
    ((⟨true, 5, 30, true, some "m.wav", true, true⟩ : ProcState).is_playing = false →
      get_playback_position ⟨true, 5, 30, true, some "m.wav", true, true⟩ 12 = 0) ∧
    (pause_playback ⟨true, 5, 30, true, some "m.wav", true, true⟩ true).1
      = ⟨true, 5, 30, true, some "m.wav", true, true⟩ ∧
    get_playback_position (stop_playback ⟨true, 5, 30, true, some "m.wav", true, true⟩).state 12
      = 0 :=
  C6_position_model ⟨true, 5, 30, true, some "m.wav", true, true⟩ 12 true

/-- C9 counterexample: stopping while the session is buffering deletes no
file at all — in particular not the session's temporary output file — since
`current_playback_file` has not been set yet. -/
theorem C9_stop_buffering_counterexample :
    (stop_playback buffering_state).deleted_files = [] ∧
    "mix_stream.wav" ∉ (stop_playback buffering_state).deleted_files := by
  refine ⟨rfl, ?_⟩
  simp [stop_playback, buffering_state]

/-- C9 amended: `stop_playback` called while the streaming session is still
buffering terminates the engine process (graceful terminate, then kill),
clears the process handle, leaves the state stopped and propagates no
exception — but it removes no temporary file, because the session's output
path is only registered in `current_playback_file` after playback starts. -/
theorem C9_stop_while_buffering :
    (stop_playback buffering_state).engine_terminated = true ∧
    (stop_playback buffering_state).ok = true ∧
    (stop_playback buffering_state).state.is_playing = false ∧
    (stop_playback buffering_state).state.has_streaming_process = false ∧
    (stop_playback buffering_state).deleted_files = [] :=
  ⟨rfl, rfl, rfl, rfl, rfl⟩

lemma demux_unquote_nil (b : Bool) : demux_unquote b [] = [] := by
  cases b <;> rfl

lemma demux_unquote_true_cons (c : Char) (rest : List Char) :
    demux_unquote true (c :: rest)
      = if c = '\'' then demux_unquote false rest else c :: demux_unquote true rest := by
  rw [demux_unquote.eq_def]

lemma demux_unquote_false_cons (c : Char) (rest : List Char) :
    demux_unquote false (c :: rest)
      = if c = '\'' then demux_unquote true rest
        else if c = '\\' then
          match rest with
          | [] => []
          | d :: rest2 => d :: demux_unquote false rest2
        else c :: demux_unquote false rest := by
  rw [demux_unquote.eq_def]

lemma demux_unquote_escape (p : List Char) :
    demux_unquote true (escape_path p ++ ['\'']) = p := by
  induction p with
  | nil =>
    show demux_unquote true ([] ++ ['\'']) = []
    rw [List.nil_append, demux_unquote_true_cons, if_pos rfl, demux_unquote_nil]
  | cons c cs ih =>
    have he : escape_path (c :: cs) = escape_quote_char c ++ escape_path cs := rfl
    by_cases hc : c = '\''
    · subst hc
      rw [he, show escape_quote_char '\'' = ['\'', '\\', '\'', '\''] from rfl]
      rw [List.append_assoc]
      rw [show (['\'', '\\', '\'', '\''] : List Char) ++ (escape_path cs ++ ['\''])
          = '\'' :: '\\' :: '\'' :: '\'' :: (escape_path cs ++ ['\'']) from rfl]
      rw [demux_unquote_true_cons, if_pos rfl]
      rw [demux_unquote_false_cons, if_neg (by decide), if_pos rfl]
      show '\'' :: demux_unquote false ('\'' :: (escape_path cs ++ ['\''])) = '\'' :: cs
      rw [demux_unquote_false_cons, if_pos rfl, ih]
    · rw [he, show escape_quote_char c = [c] from if_neg hc]
      rw [List.append_assoc, List.singleton_append]
      rw [demux_unquote_true_cons, if_neg hc, ih]

/-- C7: for every file path, parsing the written playlist entry back under
the concat demuxer's quoting rule yields exactly the original path, so
arbitrary filenames (including ones containing single quotes) round-trip
through the playlist. -/
theorem C7_concat_entry_roundtrip (path : List Char) :
    parse_concat_entry (concat_entry path) = path := by
  unfold parse_concat_entry concat_entry
  rw [show ("file ".toList) = ['f', 'i', 'l', 'e', ' '] from rfl]
  rw [show (['f', 'i', 'l', 'e', ' '] ++ '\'' :: (escape_path path ++ ['\''])).drop 5
      = '\'' :: (escape_path path ++ ['\'']) from rfl]
  rw [demux_unquote_false_cons, if_pos rfl]
  exact demux_unquote_escape path

end Mymix

namespace Mymix

lemma probe_contribution_nonneg (o : Option ℚ) (h : ∀ d : ℚ, o = some d → 0 < d) :
    0 ≤ probe_contribution o := by
  cases o with
  | none => simp [probe_contribution]
  | some d =>
    simp only [probe_contribution]
    split_ifs with hd
    · exact le_refl 0
    · exact (h d rfl).le

lemma duration_sum_cons (o : Option ℚ) (t : List (Option ℚ)) :
    duration_sum (o :: t) = probe_contribution o + duration_sum t := by
  simp [duration_sum]

lemma duration_sum_nonneg (ds : List (Option ℚ)) (h : ∀ d : ℚ, some d ∈ ds → 0 < d) :
    0 ≤ duration_sum ds := by
  induction ds with
  | nil => simp [duration_sum]
  | cons o t ih =>
    have h1 : 0 ≤ probe_contribution o :=
      probe_contribution_nonneg o (fun d hd => h d (by rw [← hd]; exact List.mem_cons_self o t))
    have h2 : 0 ≤ duration_sum t := ih (fun d hd => h d (List.mem_cons_of_mem o hd))
    rw [duration_sum_cons]
    linarith

lemma duration_sum_characterization (ds : List (Option ℚ))
    (hpos : ∀ d : ℚ, some d ∈ ds → 0 < d) :
    duration_sum ds = (ds.filterMap id).sum ∧
    (duration_sum ds = 0 ↔ ∀ o ∈ ds, o = none) := by
  induction ds with
  | nil => simp [duration_sum]
  | cons o t ih =>
    have hpt : ∀ d : ℚ, some d ∈ t → 0 < d := fun d hd => hpos d (List.mem_cons_of_mem o hd)
    have iht := ih hpt
    cases o with
    | none =>
      constructor
      · rw [duration_sum_cons, iht.1]
        simp [probe_contribution]
      · rw [duration_sum_cons]
        simp only [probe_contribution, zero_add]
        rw [iht.2]
        constructor
        · intro hall o ho
          rcases List.mem_cons.1 ho with h | h
          · rw [h]
          · exact hall o h
        · intro hall o ho
          exact hall o (List.mem_cons_of_mem _ ho)
    | some d =>
      have hd : 0 < d := hpos d (List.mem_cons_self _ _)
      have hco : probe_contribution (some d) = d := by
        simp [probe_contribution, hd.ne.symm]
      constructor
      · rw [duration_sum_cons, hco, iht.1]
        simp
      · constructor
        · intro hz
          exfalso
          have ht := duration_sum_nonneg t hpt
          rw [duration_sum_cons, hco] at hz
          linarith
        · intro hall
          exact absurd (hall (some d) (List.mem_cons_self _ _)) (by simp)

/-- C8: for a multi-file source the aggregate duration is the sum of the
successful probe results (failed probes contribute 0), and the operation
fails with "Could not determine audiobook duration" exactly when every
probe failed; when at least one probe succeeded the operation proceeds with
the sum of the successful probes. (Real probe results are positive
durations, hence the hypothesis.) -/
theorem C8_duration_aggregate (ds : List (Option ℚ))
    (hpos : ∀ d : ℚ, some d ∈ ds → 0 < d) :
    duration_sum ds = (ds.filterMap id).sum ∧
    (aggregate_duration ds = Except.error "Could not determine audiobook duration" ↔
      ∀ o ∈ ds, o = none) ∧
    ((∃ o ∈ ds, o ≠ none) → aggregate_duration ds = Except.ok (duration_sum ds)) := by
  have key := duration_sum_characterization ds hpos
  refine ⟨key.1, ?_, ?_⟩
  · unfold aggregate_duration
    split_ifs with hz
    · exact iff_of_true rfl (key.2.mp hz)
    · apply iff_of_false
      · simp
      · intro hall
        exact hz (key.2.mpr hall)
  · rintro ⟨o, ho, hne⟩
    unfold aggregate_duration
    rw [if_neg]
    intro hz
    exact hne (key.2.mp hz o ho)

/-- Witness for C8 on a 3-file source with one failed probe. -/
theorem C8_duration_aggregate_witness :
    (∀ d : ℚ, some d ∈ ([some 300, none, some 200] : List (Option ℚ)) → 0 < d) ∧
    (duration_sum [some 300, none, some 200]
        = (([some 300, none, some 200] : List (Option ℚ)).filterMap id).sum ∧
      (aggregate_duration [some 300, none, some 200]
          = Except.error "Could not determine audiobook duration" ↔
        ∀ o ∈ ([some 300, none, some 200] : List (Option ℚ)), o = none) ∧
      ((∃ o ∈ ([some 300, none, some 200] : List (Option ℚ)), o ≠ none) →
        aggregate_duration [some 300, none, some 200]
          = Except.ok (duration_sum [some 300, none, some 200]))) :=
  ⟨by intro d hd; simp at hd; rcases hd with h | h <;> rw [h] <;> norm_num,
    C8_duration_aggregate [some 300, none, some 200]
      (by intro d hd; simp at hd; rcases hd with h | h <;> rw [h] <;> norm_num)⟩

/-- C10: a `MemoryError` while reading an audio file into memory is never
surfaced as a load failure: for any file size and decode attempt ending in
`MemoryError`, both `load_audiobook` and `load_background_music` return
success with the in-memory segment left unset, and (whenever the decode was
actually attempted, i.e. the file was under the streaming threshold) with
the streaming-mode message. -/
theorem C10_memory_error_streaming (size : ℚ) (name : String) :
    (load_audiobook size name DecodeResult.memoryError).ok = true ∧
    (load_audiobook size name DecodeResult.memoryError).segment_loaded = false ∧
    (load_background_music size name DecodeResult.memoryError).ok = true ∧
    (load_background_music size name DecodeResult.memoryError).segment_loaded = false ∧
    (¬ 300 < size →
      (load_audiobook size name DecodeResult.memoryError).message
        = "Ready for streaming: " ++ name ++ " (too large to load, streaming only)") ∧
    (¬ 100 < size →
      (load_background_music size name DecodeResult.memoryError).message
        = "Ready for streaming: " ++ name ++ " (too large to load, streaming only)") := by
  unfold load_audiobook load_background_music
  refine ⟨?_, ?_, ?_, ?_, ?_, ?_⟩
  · split_ifs <;> rfl
  · split_ifs <;> rfl
  · split_ifs <;> rfl
  · split_ifs <;> rfl
  · intro h
    rw [if_neg h]
  · intro h
    rw [if_neg h]

/-- Witness for C10 at a 50 MB file. -/
theorem C10_memory_error_streaming_witness :
    (load_audiobook 50 "book.mp3" DecodeResult.memoryError).ok = true ∧
    (load_audiobook 50 "book.mp3" DecodeResult.memoryError).segment_loaded = false ∧
    (load_background_music 50 "book.mp3" DecodeResult.memoryError).ok = true ∧
    (load_background_music 50 "book.mp3" DecodeResult.memoryError).segment_loaded = false ∧
    (¬ (300:ℚ) < 50 →
      (load_audiobook 50 "book.mp3" DecodeResult.memoryError).message
        = "Ready for streaming: " ++ "book.mp3" ++ " (too large to load, streaming only)") ∧
    (¬ (100:ℚ) < 50 →
      (load_background_music 50 "book.mp3" DecodeResult.memoryError).message
        = "Ready for streaming: " ++ "book.mp3" ++ " (too large to load, streaming only)") :=
  C10_memory_error_streaming 50 "book.mp3"

end Mymix
